import Mathlib

/-!
Verification of the `BoxHandle` component of mcedit2
(`src/mcedit2/handles/boxhandle.py`): a shallow embedding of its data
model, geometry kernel and mouse-gesture state machine, followed by
theorems settling the specification's claims about it.

Real-valued quantities (mouse rays, camera vectors, plane intersections)
are modelled over `ℚ`; voxel coordinates and box origins/sizes over `ℤ`.
The external collaborators (`BoundingBox` from `mceditlib.selection`,
`Ray.intersectPlane` from `mcedit2.util.geometry`, the face constants of
`mceditlib.faces`, and `boxFaceUnderCursor` from
`mcedit2.rendering.selection`) are not part of the source under
verification; they are modelled from the specification, as marked on
each definition.
-/

namespace BoxHandleSpec

/-- A 3-component vector, used both for real-valued points/directions
(`Vec3 ℚ`) and for integer voxel coordinates and box origins/sizes
(`Vec3 ℤ`). -/
structure Vec3 (α : Type) where
  x : α
  y : α
  z : α
deriving DecidableEq, Repr

/-- Component access `v[i]` for `i = 0, 1, 2` (axes X, Y, Z). -/
def Vec3.get {α : Type} (v : Vec3 α) : Fin 3 → α
  | 0 => v.x
  | 1 => v.y
  | 2 => v.z

/-- Component update `v[i] = a`. -/
def Vec3.set {α : Type} (v : Vec3 α) : Fin 3 → α → Vec3 α
  | 0, a => { v with x := a }
  | 1, a => { v with y := a }
  | 2, a => { v with z := a }

/-- Componentwise combination of two vectors. -/
def Vec3.map2 {α β γ : Type} (f : α → β → γ) (u : Vec3 α) (v : Vec3 β) : Vec3 γ :=
  ⟨f u.x v.x, f u.y v.y, f u.z v.z⟩

/-- Scalar multiplication `v * s` (numpy broadcasting in the source). -/
def Vec3.mulScalar (v : Vec3 ℚ) (s : ℚ) : Vec3 ℚ :=
  ⟨v.x * s, v.y * s, v.z * s⟩

/-- Componentwise addition. -/
def Vec3.add {α : Type} [Add α] (u v : Vec3 α) : Vec3 α :=
  Vec3.map2 (fun a b => a + b) u v

/-- Componentwise absolute value, `Vector.abs()` in the source. -/
def Vec3.abs (v : Vec3 ℚ) : Vec3 ℚ :=
  ⟨|v.x|, |v.y|, |v.z|⟩

/-- Modelled from the spec: `Vector.intfloor()` of `mceditlib.geometry`
(not under `src/`), which floors each component to an integer. -/
def Vec3.intfloor (v : Vec3 ℚ) : Vec3 ℤ :=
  ⟨⌊v.x⌋, ⌊v.y⌋, ⌊v.z⌋⟩

/-- Embed an integer vector into a rational one. -/
def Vec3.toRat (v : Vec3 ℤ) : Vec3 ℚ :=
  ⟨(v.x : ℚ), (v.y : ℚ), (v.z : ℚ)⟩

/-- Modelled from the spec: `mceditlib.selection.BoundingBox` (not under
`src/`) — an axis-aligned box given by an integer `origin` and `size`;
two boxes are equal iff origin and size match component-wise. -/
structure BoundingBox where
  origin : Vec3 ℤ
  size : Vec3 ℤ
deriving DecidableEq, Repr

/-- Modelled from the spec: a box's maximum corner is `origin + size`. -/
def BoundingBox.maximum (b : BoundingBox) : Vec3 ℤ :=
  Vec3.map2 (fun a c => a + c) b.origin b.size

/-- Modelled from the spec: `BoundingBox.union` returns the smallest box
containing both — componentwise minimum of origins and maximum of
maxima. -/
def BoundingBox.union (a b : BoundingBox) : BoundingBox :=
  let o := Vec3.map2 min a.origin b.origin
  let m := Vec3.map2 max a.maximum b.maximum
  ⟨o, Vec3.map2 (fun p q => p - q) m o⟩

/-- A mouse ray: origin (`nearPoint`) and direction (`normal`), as
destructured by `nearPoint, normal = ray` in the source. -/
structure Ray where
  nearPoint : Vec3 ℚ
  normal : Vec3 ℚ
deriving DecidableEq, Repr

/-- Modelled from the spec: `Ray.intersectPlane(axis, planeCoordinate)`
of `mcedit2.util.geometry` (not under `src/`): `distance =
planeCoordinate - nearPoint[axis]`; `scale = distance / normal[axis]`,
substituting the epsilon `0.0001` when `normal[axis]` is zero; `point =
normal * scale + nearPoint`. -/
def Ray.intersectPlane (ray : Ray) (dim : Fin 3) (planeCoordinate : ℚ) : Vec3 ℚ :=
  let distance := planeCoordinate - ray.nearPoint.get dim
  let scale := distance / (if ray.normal.get dim = 0 then 1 / 10000 else ray.normal.get dim)
  Vec3.add (ray.normal.mulScalar scale) ray.nearPoint

/-- A face of a box: an integer `0..5` where `face >> 1` is the axis and
`face & 1` distinguishes the two sides along that axis. -/
abbrev Face : Type := Fin 6

/-- The axis a face is perpendicular to: `face.dimension`, equal to
`face >> 1` as used in `boxFromDragResize` and `boxFromDragSelect`. -/
def Face.dimension (face : Face) : Fin 3 :=
  ⟨face.val / 2, by have h := face.isLt; omega⟩

/-- The side bit of a face: `face & 1` in the source. -/
def Face.sideBit (face : Face) : Nat :=
  face.val % 2

/-- Modelled from the spec: `mceditlib.faces.FaceYIncreasing` (not under
`src/`), the fixed constant starting face for create gestures. Its axis
(`face >> 1`) is 1 (Y) and its side bit (`face & 1`) is 0, so that in
`boxFromDragSelect` the start point is shifted one unit up along Y and
the sweep plane lies at `startPoint.y + 1`, matching the spec's
end-to-end creation scenario. -/
def FaceYIncreasing : Face := (⟨2, by omega⟩ : Fin 6)

/-- Outbound notifications of the handle: the `boundsChanged` signal
(carrying the new value of `bounds`, which may be unset when the box is
being cleared) and the `boundsChangedDone` signal (final box plus the
`isNewSelection` flag). -/
inductive Event where
  | boundsChanged (box : Option BoundingBox)
  | boundsChangedDone (box : Option BoundingBox) (isNewSelection : Bool)
deriving DecidableEq, Repr

/-- A mouse event as delivered to `mousePress` / `mouseMove` /
`mouseRelease`: the world-space ray, the modifier-key bitmask, the
camera view vector (`event.view.cameraVector`), the clicked voxel
(`event.blockPosition`), and the reply of the external collaborator
`boxFaceUnderCursor(bounds, ray)` of `mcedit2.rendering.selection` (not
under `src/`, consumed as an oracle per the spec): the intersection
point and face, or `none` when the ray misses the box. -/
structure MouseEvent where
  ray : Ray
  modifiers : Nat
  cameraVector : Vec3 ℚ
  blockPosition : Vec3 ℤ
  faceUnder : Option (Vec3 ℚ × Face)
deriving DecidableEq, Repr

/-- The full mutable state of a `BoxHandle`, including the data pushed
into its two render-facing child nodes (`boxNode`, a `SelectionBoxNode`,
and `faceDragNode`, a `SelectionFaceNode`). The `bounds` property reads
`boxNode.selectionBox`, so it is not stored separately. Python `None`
becomes `Option.none`. -/
structure BoxHandle where
  dragResizeFace : Option Face
  dragResizeDimension : Option (Fin 3)
  dragResizePosition : Option ℚ
  dragStartPoint : Option (Vec3 ℤ)
  dragStartFace : Option Face
  oldBounds : Option BoundingBox
  hiliteFace : Bool
  resizable : Bool
  modifier : Nat
  isMoving : Bool
  boxNodeSelectionBox : Option BoundingBox
  boxNodeFilled : Bool
  faceDragNodeSelectionBox : Option BoundingBox
  faceDragNodeVisible : Bool
  faceDragNodeFace : Option Face
  faceDragNodeColor : Vec3 ℚ
deriving DecidableEq, Repr

/-- The class attribute `_moveFaceColor = (0.3, 0.9, 0.3)`. -/
def moveFaceColor : Vec3 ℚ := ⟨3 / 10, 9 / 10, 3 / 10⟩

/-- The class attribute `_resizeFaceColor = (0.3, 0.6, 0.9)`. -/
def resizeFaceColor : Vec3 ℚ := ⟨3 / 10, 6 / 10, 9 / 10⟩

/-- The `Qt.ShiftModifier` bitmask (0x02000000), the class-level default
of `modifier`. -/
def shiftModifier : Nat := 33554432

/-- A freshly constructed handle: every drag field unset, `hiliteFace`
and `_resizable` true, `boxNode.filled = False`, and no selection box in
either child node (the render nodes of `mcedit2.rendering.selection` are
not under `src/`; their initial empty selection box and visibility are
modelled from the spec, which starts the handle with no box). -/
def BoxHandle.init : BoxHandle where
  dragResizeFace := none
  dragResizeDimension := none
  dragResizePosition := none
  dragStartPoint := none
  dragStartFace := none
  oldBounds := none
  hiliteFace := true
  resizable := true
  modifier := shiftModifier
  isMoving := false
  boxNodeSelectionBox := none
  boxNodeFilled := false
  faceDragNodeSelectionBox := none
  faceDragNodeVisible := true
  faceDragNodeFace := none
  faceDragNodeColor := resizeFaceColor

/-- The `bounds` property getter: returns `boxNode.selectionBox`. -/
def BoxHandle.bounds (h : BoxHandle) : Option BoundingBox :=
  h.boxNodeSelectionBox

/-- The `bounds` property setter: when the new box differs from
`boxNode.selectionBox`, push it to both child nodes and emit
`boundsChanged`; otherwise do nothing. -/
def BoxHandle.setBounds (h : BoxHandle) (box : Option BoundingBox) :
    BoxHandle × List Event :=
  if box ≠ h.boxNodeSelectionBox then
    ({ h with boxNodeSelectionBox := box, faceDragNodeSelectionBox := box },
     [Event.boundsChanged box])
  else
    (h, [])

/-- Source method `moveModifierDown`: the bitwise AND of the event's modifiers with the
handle's configured modifier, truthy when nonzero. -/
def BoxHandle.moveModifierDown (h : BoxHandle) (e : MouseEvent) : Nat :=
  e.modifiers &&& h.modifier

/-- The `resizable` property setter. The source asserts `value or
self.bounds` before storing, so clearing the flag while `bounds` is
unset raises `AssertionError` (modelled as `none`) and the handle is
not updated; a `BoundingBox` instance is always truthy. -/
def BoxHandle.setResizable (h : BoxHandle) (value : Bool) : Option BoxHandle :=
  if value = false ∧ h.bounds = none then none
  else some { h with resizable := value }

/-- Source method `BoxHandle.dragResizePoint(ray)` (source lines 91-106): intersection
of the mouse ray with the plane perpendicular to axis `dim`
(`self.dragResizeDimension`) at coordinate `pos`
(`self.dragResizePosition`). `scale = distance / (normal[dim] or
0.0001)`: Python's `or` substitutes the epsilon exactly when
`normal[dim]` is zero. The stored drag fields are passed explicitly. -/
def dragResizePoint (dim : Fin 3) (pos : ℚ) (ray : Ray) : Vec3 ℚ :=
  let distance := pos - ray.nearPoint.get dim
  let scale := distance / (if ray.normal.get dim = 0 then 1 / 10000 else ray.normal.get dim)
  Vec3.add (ray.normal.mulScalar scale) ray.nearPoint

/-- The rounding applied to the dragged coordinate in
`boxFromDragResize` (source line 120): `int(numpy.floor(q + 0.5))`. -/
def roundHalfUp (q : ℚ) : ℤ :=
  ⌊q + 1 / 2⌋

/-- The stationary side built in `boxFromDragResize` (source lines
111-119): the drag axis is `dragdim = face >> 1`; when `side = face & 1`
is set the origin is advanced by the size along `dragdim`; the size
along `dragdim` becomes 0. -/
def resizeOtherSide (face : Face) (box : BoundingBox) : BoundingBox :=
  let dragdim := face.dimension
  let origin :=
    if face.sideBit ≠ 0 then
      box.origin.set dragdim (box.origin.get dragdim + box.size.get dragdim)
    else box.origin
  ⟨origin, box.size.set dragdim 0⟩

/-- The moved side built in `boxFromDragResize` (source lines 120-121):
same flat size, with the origin's coordinate on `dragdim` replaced by
`int(numpy.floor(point[dragdim] + 0.5))`. -/
def resizeThisSide (face : Face) (point : Vec3 ℚ) (box : BoundingBox) : BoundingBox :=
  let dragdim := face.dimension
  ⟨(resizeOtherSide face box).origin.set dragdim (roundHalfUp (point.get dragdim)),
   box.size.set dragdim 0⟩

/-- Source method `BoxHandle.boxFromDragResize(box, ray)` (source lines 108-123):
intersect the ray with the sweep plane, split the box at the dragged
face into the moved side and the stationary side, and return their
union. `face`, `dim`, `pos` stand for the stored `dragResizeFace`,
`dragResizeDimension`, `dragResizePosition`. -/
def boxFromDragResize (face : Face) (dim : Fin 3) (pos : ℚ)
    (box : BoundingBox) (ray : Ray) : BoundingBox :=
  let point := dragResizePoint dim pos ray
  (resizeThisSide face point box).union (resizeOtherSide face box)

/-- Source method `BoxHandle.boxFromDragSelect(ray)` (source lines 125-148): build the
flat start box at `dragStartPoint` (shifted one unit along the face's
axis when `face & 1 == 0`), intersect the ray with the plane through the
(possibly shifted) start point, floor the intersection, and return the
union of the two flat boxes. `point0`, `face` stand for the stored
`dragStartPoint`, `dragStartFace`. -/
def boxFromDragSelect (point0 : Vec3 ℤ) (face : Face) (ray : Ray) : BoundingBox :=
  let dim := face.dimension
  let size := (Vec3.mk (1 : ℤ) 1 1).set dim 0
  let point :=
    if face.sideBit = 0 then
      Vec3.add point0 ((Vec3.mk (0 : ℤ) 0 0).set dim 1)
    else point0
  let startBox : BoundingBox := ⟨point, size⟩
  let endPoint := ray.intersectPlane dim ((point.get dim : ℤ) : ℚ)
  let endBox : BoundingBox := ⟨endPoint.intfloor, size⟩
  startBox.union endBox

/-- The successor axis `(d + 1) % 3`, used twice in `beginResize`. -/
def nextDim (d : Fin 3) : Fin 3 :=
  ⟨(d.val + 1) % 3, by omega⟩

/-- Source method `BoxHandle.beginResize(event)` (source lines 152-174). When the
oracle reports a face under the cursor: store `dragResizeFace`, choose
the sweep axis `dim = (face.dimension + 1) % 3`, swapping to
`dim1 = (dim + 1) % 3` when the camera vector's absolute component on
`dim1` strictly exceeds the one on `dim`; store `dragResizePosition =
point[dim]` and snapshot `oldBounds`. When no face is hit, clear
`bounds` (source line 174; the setter emits `boundsChanged`). The
source's `return True` is unused by its caller and dropped here. -/
def BoxHandle.beginResize (h : BoxHandle) (e : MouseEvent) : BoxHandle × List Event :=
  match e.faceUnder with
  | some (point, face) =>
    let dim := nextDim face.dimension
    let dim1 := nextDim dim
    let vector := e.cameraVector.abs
    let dim := if vector.get dim1 > vector.get dim then dim1 else dim
    ({ h with dragResizeFace := some face,
              dragResizeDimension := some dim,
              dragResizePosition := some (point.get dim),
              oldBounds := h.bounds }, [])
  | none => h.setBounds none

/-- Source method `BoxHandle.continueResize(event)` (source lines 176-184): recompute
the resized box, push it to the face-highlight node and make that node
visible, then recompute it again and assign it to `bounds`. Reading an
unset drag field would raise in Python; this is modelled as `none`. -/
def BoxHandle.continueResize (h : BoxHandle) (e : MouseEvent) :
    Option (BoxHandle × List Event) := do
  let face ← h.dragResizeFace
  let dim ← h.dragResizeDimension
  let pos ← h.dragResizePosition
  let old ← h.oldBounds
  let newBox := boxFromDragResize face dim pos old e.ray
  let h := { h with faceDragNodeSelectionBox := some newBox, faceDragNodeVisible := true }
  let newBox := boxFromDragResize face dim pos old e.ray
  return h.setBounds (some newBox)

/-- Source method `BoxHandle.endResize(event)` (source lines 186-191): assign the
final resized box to `bounds`, clear `oldBounds` and `dragResizeFace`
(and only those two drag fields), hide the face-highlight node, and emit
`boundsChangedDone(bounds, False)`. -/
def BoxHandle.endResize (h : BoxHandle) (e : MouseEvent) :
    Option (BoxHandle × List Event) := do
  let face ← h.dragResizeFace
  let dim ← h.dragResizeDimension
  let pos ← h.dragResizePosition
  let old ← h.oldBounds
  let (h, evs) := h.setBounds (some (boxFromDragResize face dim pos old e.ray))
  let h := { h with oldBounds := none, dragResizeFace := none, faceDragNodeVisible := false }
  return (h, evs ++ [Event.boundsChangedDone h.bounds false])

/-- Source method `BoxHandle.beginCreate(event)` (source lines 195-197): record the
clicked voxel as `dragStartPoint` and the hardcoded
`faces.FaceYIncreasing` as `dragStartFace`. -/
def BoxHandle.beginCreate (h : BoxHandle) (e : MouseEvent) : BoxHandle :=
  { h with dragStartPoint := some e.blockPosition,
           dragStartFace := some FaceYIncreasing }

/-- Source method `BoxHandle.continueCreate(event)` (source lines 199-202): recompute
the dragged-out box and assign it to `bounds`. -/
def BoxHandle.continueCreate (h : BoxHandle) (e : MouseEvent) :
    Option (BoxHandle × List Event) := do
  let sp ← h.dragStartPoint
  let sf ← h.dragStartFace
  return h.setBounds (some (boxFromDragSelect sp sf e.ray))

/-- Source method `BoxHandle.endCreate(event)` (source lines 204-208): compute the
final box, clear `dragStartPoint` (but not `dragStartFace`), assign the
box to `bounds`, and emit `boundsChangedDone(newBox, True)`. -/
def BoxHandle.endCreate (h : BoxHandle) (e : MouseEvent) :
    Option (BoxHandle × List Event) := do
  let sp ← h.dragStartPoint
  let sf ← h.dragStartFace
  let newBox := boxFromDragSelect sp sf e.ray
  let h := { h with dragStartPoint := none }
  let (h, evs) := h.setBounds (some newBox)
  return (h, evs ++ [Event.boundsChangedDone (some newBox) true])

/-- Source methods `beginMove` / `continueMove` / `endMove` (source lines 212-219) are
`pass` stubs. -/
def BoxHandle.doMove (h : BoxHandle) : BoxHandle :=
  h

/-- Source method `BoxHandle.updateMouseHover(event)` (source lines 223-240): when a
box exists, show (or hide) the face-highlight for the face under the
cursor and tint it by whether the move modifier is held. Emits nothing. -/
def BoxHandle.updateMouseHover (h : BoxHandle) (e : MouseEvent) : BoxHandle :=
  match h.bounds with
  | none => h
  | some _ =>
    let h :=
      match e.faceUnder with
      | some (_, face) =>
        { h with faceDragNodeVisible := true,
                 faceDragNodeFace := some face,
                 faceDragNodeSelectionBox := h.bounds }
      | none => { h with faceDragNodeVisible := false }
    if h.moveModifierDown e ≠ 0 then { h with faceDragNodeColor := moveFaceColor }
    else { h with faceDragNodeColor := resizeFaceColor }

/-- Source method `BoxHandle.mousePress(event)` (source lines 247-258). With
`resizable` set and the move modifier up: if a box exists, try to begin
a resize (which clears `bounds` on a miss); then, in the same call, if
`bounds` is unset, begin a create. Otherwise fall into the `beginMove`
stub. -/
def BoxHandle.mousePress (h : BoxHandle) (e : MouseEvent) : BoxHandle × List Event :=
  if h.resizable = true ∧ h.moveModifierDown e = 0 then
    let (h, evs) := if h.bounds ≠ none then h.beginResize e else (h, [])
    if h.bounds = none then (h.beginCreate e, evs) else (h, evs)
  else
    (h.doMove, [])

/-- Source method `BoxHandle.mouseMove(event)` (source lines 260-273). With
`resizable` set and the move modifier up: continue a create gesture if
`dragStartPoint` is set (a `Vector` is a nonempty tuple, hence truthy),
else continue a resize gesture if a box exists and `dragResizeFace` is
set; otherwise the `continueMove` stub. Afterwards, if `hiliteFace` is
set, run the hover update. -/
def BoxHandle.mouseMove (h : BoxHandle) (e : MouseEvent) :
    Option (BoxHandle × List Event) := do
  let (h, evs) ←
    if h.resizable = true ∧ h.moveModifierDown e = 0 then
      if h.dragStartPoint ≠ none then h.continueCreate e
      else if h.bounds ≠ none then
        if h.dragResizeFace ≠ none then h.continueResize e
        else pure (h, [])
      else pure (h, [])
    else pure (h.doMove, [])
  let h := if h.hiliteFace then h.updateMouseHover e else h
  return (h, evs)

/-- Source method `BoxHandle.mouseRelease(event)` (source lines 275-283). With
`resizable` set and the move modifier up: end a create gesture if
`dragStartPoint` is set, else end a resize gesture if `dragResizeFace`
is set, else do nothing; otherwise the `endMove` stub. -/
def BoxHandle.mouseRelease (h : BoxHandle) (e : MouseEvent) :
    Option (BoxHandle × List Event) :=
  if h.resizable = true ∧ h.moveModifierDown e = 0 then
    if h.dragStartPoint ≠ none then h.endCreate e
    else if h.dragResizeFace ≠ none then h.endResize e
    else some (h, [])
  else
    some (h.doMove, [])

/-! ### Basic lemmas about the embedding -/

theorem Vec3.get_map2 {α β γ : Type} (f : α → β → γ) (u : Vec3 α) (v : Vec3 β)
    (i : Fin 3) : (Vec3.map2 f u v).get i = f (u.get i) (v.get i) := by
  fin_cases i <;> rfl

theorem Vec3.get_set {α : Type} (v : Vec3 α) (j i : Fin 3) (a : α) :
    (v.set j a).get i = if i = j then a else v.get i := by
  fin_cases i <;> fin_cases j <;> simp [Vec3.get, Vec3.set]

theorem BoundingBox.union_size_nonneg (a b : BoundingBox)
    (ha : ∀ i, 0 ≤ a.size.get i) (hb : ∀ i, 0 ≤ b.size.get i) :
    ∀ i, 0 ≤ (a.union b).size.get i := by
  intro i
  have h1 := ha i
  have h2 := hb i
  simp only [BoundingBox.union, BoundingBox.maximum, Vec3.get_map2]
  omega

theorem BoxHandle.setBounds_dragResizeFace (h : BoxHandle) (b : Option BoundingBox) :
    (h.setBounds b).1.dragResizeFace = h.dragResizeFace := by
  unfold BoxHandle.setBounds; split <;> rfl

theorem BoxHandle.setBounds_dragResizeDimension (h : BoxHandle) (b : Option BoundingBox) :
    (h.setBounds b).1.dragResizeDimension = h.dragResizeDimension := by
  unfold BoxHandle.setBounds; split <;> rfl

theorem BoxHandle.setBounds_dragResizePosition (h : BoxHandle) (b : Option BoundingBox) :
    (h.setBounds b).1.dragResizePosition = h.dragResizePosition := by
  unfold BoxHandle.setBounds; split <;> rfl

theorem BoxHandle.setBounds_dragStartPoint (h : BoxHandle) (b : Option BoundingBox) :
    (h.setBounds b).1.dragStartPoint = h.dragStartPoint := by
  unfold BoxHandle.setBounds; split <;> rfl

theorem BoxHandle.setBounds_dragStartFace (h : BoxHandle) (b : Option BoundingBox) :
    (h.setBounds b).1.dragStartFace = h.dragStartFace := by
  unfold BoxHandle.setBounds; split <;> rfl

theorem BoxHandle.setBounds_oldBounds (h : BoxHandle) (b : Option BoundingBox) :
    (h.setBounds b).1.oldBounds = h.oldBounds := by
  unfold BoxHandle.setBounds; split <;> rfl

theorem BoxHandle.setBounds_bounds (h : BoxHandle) (b : Option BoundingBox) :
    (h.setBounds b).1.bounds = b ∨ (h.setBounds b).1.bounds = h.bounds := by
  unfold BoxHandle.setBounds BoxHandle.bounds; split
  · left; rfl
  · right; rfl

/-! ### Claim theorems

Concrete evaluations of the embedding inside proofs use `decide`; the
rational operations of Batteries are re-tagged semireducible inside this
section so that the elaborator can reduce them. -/

section ClaimTheorems

attribute [local semireducible] Rat.add Rat.mul Rat.inv Rat.sub

/-- C3: for every handle state, setting `bounds` to a value
component-wise equal to the current box is a no-op — the state is
unchanged and no `boundsChanged` notification is emitted — while setting
it to an unequal value updates both child render nodes and emits
`boundsChanged` exactly once with the new box. -/
theorem setBounds_noop_or_single_notify (h : BoxHandle) (box : Option BoundingBox) :
    h.setBounds box =
      if box = h.bounds then (h, [])
      else ({ h with boxNodeSelectionBox := box, faceDragNodeSelectionBox := box },
            [Event.boundsChanged box]) := by
  unfold BoxHandle.setBounds BoxHandle.bounds
  by_cases hb : box = h.boxNodeSelectionBox <;> simp [hb]

/-- C5: the plane-intersection computation of a resize drag never
divides by the ray's direction component when that component is zero:
the epsilon `0.0001` is substituted as the divisor and the point is
still computed as `normal * scale + nearPoint`. -/
theorem dragResizePoint_zero_normal (dim : Fin 3) (pos : ℚ) (ray : Ray)
    (hz : ray.normal.get dim = 0) :
    dragResizePoint dim pos ray =
      Vec3.add (ray.normal.mulScalar ((pos - ray.nearPoint.get dim) / (1 / 10000)))
        ray.nearPoint := by
  unfold dragResizePoint
  rw [hz]
  simp

/-- C5 witness: a ray pointing along X is parallel to any Y-plane; its
Y direction component is zero and the epsilon divisor is used. -/
theorem dragResizePoint_zero_normal_witness :
    (⟨⟨0, 0, 0⟩, ⟨1, 0, 0⟩⟩ : Ray).normal.get 1 = 0 ∧
    dragResizePoint 1 1 ⟨⟨0, 0, 0⟩, ⟨1, 0, 0⟩⟩ =
      Vec3.add ((⟨⟨0, 0, 0⟩, ⟨1, 0, 0⟩⟩ : Ray).normal.mulScalar
        ((1 - (⟨⟨0, 0, 0⟩, ⟨1, 0, 0⟩⟩ : Ray).nearPoint.get 1) / (1 / 10000)))
        (⟨⟨0, 0, 0⟩, ⟨1, 0, 0⟩⟩ : Ray).nearPoint :=
  ⟨by decide, dragResizePoint_zero_normal 1 1 _ (by decide)⟩

/-- C9: setting `resizable` to false while `bounds` is unset fails the
assertion (modelled as `none`, producing no updated handle, so the flag
is unchanged); setting it to false with `bounds` set, or to true in any
state, succeeds and changes only the flag. -/
theorem setResizable_assertion (h : BoxHandle) :
    (h.bounds = none → h.setResizable false = none) ∧
    (h.bounds ≠ none → h.setResizable false = some { h with resizable := false }) ∧
    h.setResizable true = some { h with resizable := true } := by
  refine ⟨fun hb => ?_, fun hb => ?_, ?_⟩
  · simp [BoxHandle.setResizable, hb]
  · simp [BoxHandle.setResizable, hb]
  · simp [BoxHandle.setResizable]

/-- C9 witness: the fresh handle (no bounds) rejects `resizable :=
false` but accepts `resizable := true`; a handle with a box accepts
`resizable := false`. -/
theorem setResizable_assertion_witness :
    BoxHandle.init.setResizable false = none ∧
    ({ BoxHandle.init with boxNodeSelectionBox := some ⟨⟨0, 0, 0⟩, ⟨1, 1, 1⟩⟩ }).setResizable false =
      some { { BoxHandle.init with boxNodeSelectionBox := some ⟨⟨0, 0, 0⟩, ⟨1, 1, 1⟩⟩ } with
              resizable := false } ∧
    BoxHandle.init.setResizable true = some { BoxHandle.init with resizable := true } :=
  ⟨(setResizable_assertion BoxHandle.init).1 rfl,
   (setResizable_assertion _).2.1 (by decide),
   (setResizable_assertion BoxHandle.init).2.2⟩

/-- C10: when `resizable` is true, the move modifier is up, and no
gesture is active (`dragStartPoint` and `dragResizeFace` both unset),
`mouseRelease` leaves every handle field unchanged and emits nothing. -/
theorem mouseRelease_idle_noop (h : BoxHandle) (e : MouseEvent)
    (hr : h.resizable = true) (hm : h.moveModifierDown e = 0)
    (hsp : h.dragStartPoint = none) (hrf : h.dragResizeFace = none) :
    h.mouseRelease e = some (h, []) := by
  unfold BoxHandle.mouseRelease
  simp [hr, hm, hsp, hrf]

/-- C10 witness: releasing on the fresh handle with no modifier held
does nothing. -/
theorem mouseRelease_idle_noop_witness :
    (BoxHandle.init.resizable = true ∧
     BoxHandle.init.moveModifierDown ⟨⟨⟨0, 0, 0⟩, ⟨0, 1, 0⟩⟩, 0, ⟨1, 0, 0⟩, ⟨0, 0, 0⟩, none⟩ = 0 ∧
     BoxHandle.init.dragStartPoint = none ∧
     BoxHandle.init.dragResizeFace = none) ∧
    BoxHandle.init.mouseRelease ⟨⟨⟨0, 0, 0⟩, ⟨0, 1, 0⟩⟩, 0, ⟨1, 0, 0⟩, ⟨0, 0, 0⟩, none⟩ =
      some (BoxHandle.init, []) :=
  ⟨⟨rfl, by decide, rfl, rfl⟩,
   mouseRelease_idle_noop _ _ rfl (by decide) rfl rfl⟩

/-- C4: when a resize begins on a face, the chosen drag dimension is
`dim = (face.dimension + 1) % 3`, swapped to `dim1 = (dim + 1) % 3`
exactly when the camera vector's absolute component on `dim1` strictly
exceeds the one on `dim`; on a tie no swap occurs. -/
theorem beginResize_dimension_choice (h : BoxHandle) (e : MouseEvent)
    (point : Vec3 ℚ) (face : Face) (hf : e.faceUnder = some (point, face)) :
    (h.beginResize e).1.dragResizeDimension =
      some (if (e.cameraVector.abs).get (nextDim (nextDim face.dimension)) >
               (e.cameraVector.abs).get (nextDim face.dimension)
            then nextDim (nextDim face.dimension)
            else nextDim face.dimension) ∧
    ((e.cameraVector.abs).get (nextDim (nextDim face.dimension)) =
        (e.cameraVector.abs).get (nextDim face.dimension) →
      (h.beginResize e).1.dragResizeDimension = some (nextDim face.dimension)) := by
  constructor
  · simp [BoxHandle.beginResize, hf]
  · intro heq
    simp [BoxHandle.beginResize, hf, heq]

/-- C4 witness: a press on a face with `dimension = 1` gives `dim = 2`,
`dim1 = 0`; a camera vector `(1, 0, 0)` has `|v[0]| > |v[2]|` and swaps
to 0, while a camera vector `(1, 0, 1)` ties and keeps 2. -/
theorem beginResize_dimension_choice_witness :
    (MouseEvent.faceUnder ⟨⟨⟨2, 0, 3⟩, ⟨1, 1, 0⟩⟩, 0, ⟨1, 0, 0⟩, ⟨0, 0, 0⟩,
        some (⟨4, 2, 2⟩, (3 : Fin 6))⟩ = some (⟨4, 2, 2⟩, (3 : Fin 6))) ∧
    (BoxHandle.init.beginResize ⟨⟨⟨2, 0, 3⟩, ⟨1, 1, 0⟩⟩, 0, ⟨1, 0, 0⟩, ⟨0, 0, 0⟩,
        some (⟨4, 2, 2⟩, (3 : Fin 6))⟩).1.dragResizeDimension = some 0 ∧
    (BoxHandle.init.beginResize ⟨⟨⟨2, 0, 3⟩, ⟨1, 1, 0⟩⟩, 0, ⟨1, 0, 1⟩, ⟨0, 0, 0⟩,
        some (⟨4, 2, 2⟩, (3 : Fin 6))⟩).1.dragResizeDimension = some 2 := by
  refine ⟨rfl, ?_, ?_⟩
  · have h1 := (beginResize_dimension_choice BoxHandle.init
      ⟨⟨⟨2, 0, 3⟩, ⟨1, 1, 0⟩⟩, 0, ⟨1, 0, 0⟩, ⟨0, 0, 0⟩, some (⟨4, 2, 2⟩, (3 : Fin 6))⟩
      ⟨4, 2, 2⟩ (3 : Fin 6) rfl).1
    rw [h1]; decide
  · have h2 := (beginResize_dimension_choice BoxHandle.init
      ⟨⟨⟨2, 0, 3⟩, ⟨1, 1, 0⟩⟩, 0, ⟨1, 0, 1⟩, ⟨0, 0, 0⟩, some (⟨4, 2, 2⟩, (3 : Fin 6))⟩
      ⟨4, 2, 2⟩ (3 : Fin 6) rfl).1
    rw [h2]; decide

/-- C6: for every box with non-negative size components and every ray
(and stored drag face, dimension and plane position), `boxFromDragResize`
returns a box whose size components are all non-negative: it is the
union of the stationary and moved zero-extent sides. -/
theorem boxFromDragResize_size_nonneg (face : Face) (dim : Fin 3) (pos : ℚ)
    (box : BoundingBox) (ray : Ray) (hs : ∀ i, 0 ≤ box.size.get i) :
    ∀ i, 0 ≤ (boxFromDragResize face dim pos box ray).size.get i := by
  have hflat : ∀ i, 0 ≤ (box.size.set face.dimension 0).get i := by
    intro i
    rw [Vec3.get_set]
    split
    · omega
    · exact hs i
  unfold boxFromDragResize
  exact BoundingBox.union_size_nonneg _ _ (fun i => hflat i) (fun i => hflat i)

/-- C6 witness: resizing a concrete 1 by 2 by 3 box with a concrete ray
yields non-negative sizes on all three axes. -/
theorem boxFromDragResize_size_nonneg_witness :
    (∀ i, 0 ≤ (⟨⟨0, 0, 0⟩, ⟨1, 2, 3⟩⟩ : BoundingBox).size.get i) ∧
    0 ≤ (boxFromDragResize 0 0 0 ⟨⟨0, 0, 0⟩, ⟨1, 2, 3⟩⟩ ⟨⟨0, 0, 0⟩, ⟨1, 1, 1⟩⟩).size.get 0 ∧
    0 ≤ (boxFromDragResize 0 0 0 ⟨⟨0, 0, 0⟩, ⟨1, 2, 3⟩⟩ ⟨⟨0, 0, 0⟩, ⟨1, 1, 1⟩⟩).size.get 1 ∧
    0 ≤ (boxFromDragResize 0 0 0 ⟨⟨0, 0, 0⟩, ⟨1, 2, 3⟩⟩ ⟨⟨0, 0, 0⟩, ⟨1, 1, 1⟩⟩).size.get 2 :=
  ⟨by decide,
   boxFromDragResize_size_nonneg 0 0 0 _ _ (by decide) 0,
   boxFromDragResize_size_nonneg 0 0 0 _ _ (by decide) 1,
   boxFromDragResize_size_nonneg 0 0 0 _ _ (by decide) 2⟩

/-- C7: `boxFromDragResize` is the union of the moved side and the
stationary side, and the moved side's coordinate on the dragged axis is
`floor(point[dim] + 0.5)` — round half up — so an intersection point at
exactly `k + 1/2` yields coordinate `k + 1`, not `k`. -/
theorem boxFromDragResize_round_half_up (face : Face) (dim : Fin 3) (pos : ℚ)
    (box : BoundingBox) (ray : Ray) (point : Vec3 ℚ) (k : ℤ)
    (hp : point.get face.dimension = (k : ℚ) + 1 / 2) :
    boxFromDragResize face dim pos box ray =
      (resizeThisSide face (dragResizePoint dim pos ray) box).union
        (resizeOtherSide face box) ∧
    (resizeThisSide face point box).origin.get face.dimension = k + 1 := by
  refine ⟨rfl, ?_⟩
  show ((resizeOtherSide face box).origin.set face.dimension
    (roundHalfUp (point.get face.dimension))).get face.dimension = k + 1
  rw [Vec3.get_set, if_pos rfl, hp]
  unfold roundHalfUp
  have hq : (k : ℚ) + 1 / 2 + 1 / 2 = ((k + 1 : ℤ) : ℚ) := by push_cast; ring
  rw [hq, Int.floor_intCast]

/-- C7 witness: a drag point landing at exactly `0.5` on the Y axis of
face `FaceYIncreasing` produces the coordinate 1. -/
theorem boxFromDragResize_round_half_up_witness :
    ((⟨0, 1 / 2, 0⟩ : Vec3 ℚ).get (Face.dimension FaceYIncreasing) = ((0 : ℤ) : ℚ) + 1 / 2) ∧
    (boxFromDragResize FaceYIncreasing 0 0 ⟨⟨0, 0, 0⟩, ⟨1, 1, 1⟩⟩ ⟨⟨0, 0, 0⟩, ⟨1, 1, 1⟩⟩ =
      (resizeThisSide FaceYIncreasing
          (dragResizePoint 0 0 ⟨⟨0, 0, 0⟩, ⟨1, 1, 1⟩⟩) ⟨⟨0, 0, 0⟩, ⟨1, 1, 1⟩⟩).union
        (resizeOtherSide FaceYIncreasing ⟨⟨0, 0, 0⟩, ⟨1, 1, 1⟩⟩) ∧
     (resizeThisSide FaceYIncreasing ⟨0, 1 / 2, 0⟩ ⟨⟨0, 0, 0⟩, ⟨1, 1, 1⟩⟩).origin.get
        (Face.dimension FaceYIncreasing) = 0 + 1) :=
  ⟨by decide,
   boxFromDragResize_round_half_up FaceYIncreasing 0 0 ⟨⟨0, 0, 0⟩, ⟨1, 1, 1⟩⟩
     ⟨⟨0, 0, 0⟩, ⟨1, 1, 1⟩⟩ ⟨0, 1 / 2, 0⟩ 0 (by decide)⟩

/-- A handle holding a 4 by 4 by 4 box at the origin, used in the C1
counterexample. -/
def boxedHandle : BoxHandle :=
  { BoxHandle.init with boxNodeSelectionBox := some ⟨⟨0, 0, 0⟩, ⟨4, 4, 4⟩⟩ }

/-- A press event whose ray misses every face of the existing box (the
face oracle replies `none`), with the move modifier up, clicked at voxel
`(1, 2, 3)`. -/
def missEvent : MouseEvent :=
  ⟨⟨⟨2, 0, 3⟩, ⟨1, 1, 0⟩⟩, 0, ⟨1, 0, 0⟩, ⟨1, 2, 3⟩, none⟩

/-- C1 counterexample: a press that misses all faces while a box exists
clears `bounds` but also begins a create gesture in the same
`mousePress` call — `dragStartPoint` is set from this very event — so
the claim that no create begins during that press is false. -/
theorem mousePress_miss_same_press_cex :
    (boxedHandle.mousePress missEvent).1.bounds = none ∧
    ¬(boxedHandle.mousePress missEvent).1.dragStartPoint = none := by
  decide

/-- C1 amended: when a press is received with `resizable` true, the move
modifier up, `bounds` set, and the ray hitting no face, the handle
clears `bounds` (emitting `boundsChanged none`) and in the same press
call begins a create gesture: `dragStartPoint` is set to this event's
voxel and `dragStartFace` to `FaceYIncreasing`. -/
theorem mousePress_miss_clears_and_creates (h : BoxHandle) (e : MouseEvent)
    (hr : h.resizable = true) (hm : h.moveModifierDown e = 0)
    (hb : h.bounds ≠ none) (hf : e.faceUnder = none) :
    (h.mousePress e).1.bounds = none ∧
    (h.mousePress e).1.dragStartPoint = some e.blockPosition ∧
    (h.mousePress e).1.dragStartFace = some FaceYIncreasing ∧
    (h.mousePress e).2 = [Event.boundsChanged none] := by
  have hb2 : ¬(none = h.boxNodeSelectionBox) := fun hh => hb hh.symm
  unfold BoxHandle.mousePress BoxHandle.beginResize BoxHandle.setBounds
    BoxHandle.beginCreate BoxHandle.bounds at *
  simp [hr, hm, hf, hb, hb2]

/-- C1 witness: the amended behaviour on the concrete miss scenario. -/
theorem mousePress_miss_clears_and_creates_witness :
    (boxedHandle.resizable = true ∧ boxedHandle.moveModifierDown missEvent = 0 ∧
     boxedHandle.bounds ≠ none ∧ missEvent.faceUnder = none) ∧
    ((boxedHandle.mousePress missEvent).1.bounds = none ∧
     (boxedHandle.mousePress missEvent).1.dragStartPoint = some missEvent.blockPosition ∧
     (boxedHandle.mousePress missEvent).1.dragStartFace = some FaceYIncreasing ∧
     (boxedHandle.mousePress missEvent).2 = [Event.boundsChanged none]) :=
  ⟨⟨rfl, by decide, by decide, rfl⟩,
   mousePress_miss_clears_and_creates boxedHandle missEvent rfl (by decide)
     (by decide) rfl⟩

/-- A press event whose ray hits the box face `3` (axis Y) at point
`(4, 2, 2)`, with a camera vector along X, beginning a resize gesture
with drag dimension 0 and plane position 4. -/
def hitEvent : MouseEvent :=
  ⟨⟨⟨2, 0, 3⟩, ⟨1, 1, 0⟩⟩, 0, ⟨1, 0, 0⟩, ⟨0, 0, 0⟩, some (⟨4, 2, 2⟩, (3 : Fin 6))⟩

/-- The handle mid-resize: the boxed handle after the face-hitting
press. -/
def resizingHandle : BoxHandle :=
  (boxedHandle.mousePress hitEvent).1

/-- A press event on an empty handle at voxel `(0, 0, 0)`, beginning a
create gesture. -/
def overheadPressEvent : MouseEvent :=
  ⟨⟨⟨0, 20, 0⟩, ⟨0, -1, 0⟩⟩, 0, ⟨0, -1, 0⟩, ⟨0, 0, 0⟩, none⟩

/-- The handle mid-create: the fresh handle after the overhead press. -/
def creatingHandle : BoxHandle :=
  (BoxHandle.init.mousePress overheadPressEvent).1

/-- A drag/release event whose upward ray crosses the `Y = 1` plane at
`(2, 1, 3)`. -/
def planeDragEvent : MouseEvent :=
  ⟨⟨⟨2, 0, 3⟩, ⟨0, 1, 0⟩⟩, 0, ⟨0, -1, 0⟩, ⟨0, 0, 0⟩, none⟩

/-- C2 counterexample: the release ending a concrete resize gesture
clears `dragResizeFace` but leaves `dragResizeDimension = some 0` and
`dragResizePosition = some 4` set, and the release ending a concrete
create gesture leaves `dragStartFace` set — contradicting the claim
that all the per-gesture fields are unset after the release. -/
theorem endGesture_fields_not_all_cleared_cex :
    (resizingHandle.mouseRelease hitEvent).map
        (fun s => (s.1.dragResizeFace, s.1.dragResizeDimension, s.1.dragResizePosition)) =
      some (none, some 0, some 4) ∧
    (creatingHandle.mouseRelease planeDragEvent).map
        (fun s => (s.1.dragStartPoint, s.1.dragStartFace)) =
      some (none, some FaceYIncreasing) := by
  decide

/-- C2 amended: the release ending a resize gesture unsets
`dragResizeFace` and `oldBounds` but leaves `dragResizeDimension` and
`dragResizePosition` holding their gesture values; the release ending a
create gesture unsets `dragStartPoint` but leaves `dragStartFace`
holding its gesture value. -/
theorem endGesture_cleared_fields (h : BoxHandle) (e : MouseEvent) :
    (∀ f d p ob, h.dragResizeFace = some f → h.dragResizeDimension = some d →
        h.dragResizePosition = some p → h.oldBounds = some ob →
        ∃ h2 evs, h.endResize e = some (h2, evs) ∧
          h2.dragResizeFace = none ∧ h2.oldBounds = none ∧
          h2.dragResizeDimension = some d ∧ h2.dragResizePosition = some p ∧
          h2.dragStartPoint = h.dragStartPoint ∧ h2.dragStartFace = h.dragStartFace) ∧
    (∀ sp sf, h.dragStartPoint = some sp → h.dragStartFace = some sf →
        ∃ h2 evs, h.endCreate e = some (h2, evs) ∧
          h2.dragStartPoint = none ∧ h2.dragStartFace = some sf ∧
          h2.dragResizeFace = h.dragResizeFace ∧ h2.oldBounds = h.oldBounds) := by
  constructor
  · intro f d p ob hf hd hp hob
    rcases hsb : h.setBounds (some (boxFromDragResize f d p ob e.ray)) with ⟨h1, evs1⟩
    have hDim := BoxHandle.setBounds_dragResizeDimension h (some (boxFromDragResize f d p ob e.ray))
    have hPos := BoxHandle.setBounds_dragResizePosition h (some (boxFromDragResize f d p ob e.ray))
    have hSP := BoxHandle.setBounds_dragStartPoint h (some (boxFromDragResize f d p ob e.ray))
    have hSF := BoxHandle.setBounds_dragStartFace h (some (boxFromDragResize f d p ob e.ray))
    rw [hsb] at hDim hPos hSP hSF
    refine ⟨{ h1 with oldBounds := none, dragResizeFace := none, faceDragNodeVisible := false }, evs1 ++ [Event.boundsChangedDone h1.boxNodeSelectionBox false], ?_, rfl, rfl, ?_, ?_, ?_, ?_⟩
    · simp [BoxHandle.endResize, BoxHandle.bounds, hf, hd, hp, hob, hsb]
    · simpa [hd] using hDim
    · simpa [hp] using hPos
    · simpa using hSP
    · simpa using hSF
  · intro sp sf hsp hsf
    rcases hsb : ({ h with dragStartPoint := none } : BoxHandle).setBounds (some (boxFromDragSelect sp sf e.ray)) with ⟨h1, evs1⟩
    have hSP := BoxHandle.setBounds_dragStartPoint { h with dragStartPoint := none } (some (boxFromDragSelect sp sf e.ray))
    have hSF := BoxHandle.setBounds_dragStartFace { h with dragStartPoint := none } (some (boxFromDragSelect sp sf e.ray))
    have hRF := BoxHandle.setBounds_dragResizeFace { h with dragStartPoint := none } (some (boxFromDragSelect sp sf e.ray))
    have hOB := BoxHandle.setBounds_oldBounds { h with dragStartPoint := none } (some (boxFromDragSelect sp sf e.ray))
    rw [hsb] at hSP hSF hRF hOB
    rw [hsf] at hsb
    refine ⟨h1, evs1 ++ [Event.boundsChangedDone (some (boxFromDragSelect sp sf e.ray)) true], ?_, ?_, ?_, ?_, ?_⟩
    · simp [BoxHandle.endCreate, hsp, hsf, hsb]
    · simpa using hSP
    · simpa [hsf] using hSF
    · simpa using hRF
    · simpa using hOB

/-- C2 witness: the amended clearing behaviour on the concrete resize
and create gestures. -/
theorem endGesture_cleared_fields_witness :
    (resizingHandle.dragResizeFace = some (3 : Fin 6) ∧
     resizingHandle.dragResizeDimension = some 0 ∧
     resizingHandle.dragResizePosition = some 4 ∧
     resizingHandle.oldBounds = some ⟨⟨0, 0, 0⟩, ⟨4, 4, 4⟩⟩ ∧
     creatingHandle.dragStartPoint = some ⟨0, 0, 0⟩ ∧
     creatingHandle.dragStartFace = some FaceYIncreasing) ∧
    (∃ h2 evs, resizingHandle.endResize hitEvent = some (h2, evs) ∧
       h2.dragResizeFace = none ∧ h2.oldBounds = none ∧
       h2.dragResizeDimension = some 0 ∧ h2.dragResizePosition = some 4 ∧
       h2.dragStartPoint = resizingHandle.dragStartPoint ∧
       h2.dragStartFace = resizingHandle.dragStartFace) ∧
    (∃ h2 evs, creatingHandle.endCreate planeDragEvent = some (h2, evs) ∧
       h2.dragStartPoint = none ∧ h2.dragStartFace = some FaceYIncreasing ∧
       h2.dragResizeFace = creatingHandle.dragResizeFace ∧
       h2.oldBounds = creatingHandle.oldBounds) :=
  ⟨by decide,
   (endGesture_cleared_fields resizingHandle hitEvent).1 3 0 4 ⟨⟨0, 0, 0⟩, ⟨4, 4, 4⟩⟩
     (by decide) (by decide) (by decide) (by decide),
   (endGesture_cleared_fields creatingHandle planeDragEvent).2 ⟨0, 0, 0⟩ FaceYIncreasing
     (by decide) (by decide)⟩

/-- The box actually produced by the end-to-end creation scenario:
origin `(0, 1, 0)`, size `(3, 0, 4)` — flat (size 0) along the Y axis of
the start face, whose origin was shifted one unit up. -/
def createdBox : BoundingBox := ⟨⟨0, 1, 0⟩, ⟨3, 0, 4⟩⟩

/-- The end-to-end creation scenario of the spec: press at voxel
`(0, 0, 0)` on an empty handle, move with a ray crossing the `Y = 1`
plane at `(2, 1, 3)`, release with the same ray; collects the final
`bounds` and every emitted notification. -/
def createScenario : Option (Option BoundingBox × List Event) := do
  let (h1, evs1) := BoxHandle.init.mousePress overheadPressEvent
  let (h2, evs2) ← h1.mouseMove planeDragEvent
  let (h3, evs3) ← h2.mouseRelease planeDragEvent
  return (h3.bounds, evs1 ++ evs2 ++ evs3)

/-- C8 counterexample: the scenario ends with bounds
`origin (0, 1, 0), size (3, 0, 4)`, not the claimed
`origin (0, 0, 0), size (3, 1, 4)` — the created box is flat along Y
(the source's own docstring promises an initial box with height 0). -/
theorem createScenario_box_cex :
    createScenario.map Prod.fst = some (some createdBox) ∧
    createdBox ≠ ⟨⟨0, 0, 0⟩, ⟨3, 1, 4⟩⟩ := by
  decide

/-- C8 amended: the scenario ends with bounds equal to the box with
origin `(0, 1, 0)` and size `(3, 0, 4)`, and emits exactly one
`boundsChanged` (during the move) and exactly one `boundsChangedDone`
(at release) carrying that box with `isNewSelection = true`. -/
theorem createScenario_result :
    createScenario = some (some createdBox,
      [Event.boundsChanged (some createdBox),
       Event.boundsChangedDone (some createdBox) true]) := by
  decide

end ClaimTheorems

end BoxHandleSpec
